import Mathlib

/-!
Formal model of the Amicus Subscription API.

The repository holds two variants of the same Express application, each
registering a `POST /subscribe` handler backed by a Supabase client:

* `src/unnamed/part_000` — the subscription handler specified in the design
  document: it validates the request body (identifier presence,
  `subscription_type` membership, email regex, phone regex), builds an
  insert record and submits it to the `subscriptions` table, then maps the
  store's outcome (success / error code `23505` / other error / thrown
  exception) to an HTTP response.
* `src/index.js` — a variant modified for testing: its handler performs no
  validation and always inserts one `data_value` record into the
  `test_entries` table, ignoring the request body.

Both handlers are embedded below as pure Lean functions.  Request-body
fields are modelled as `Option String` (the spec's data model declares
them optional strings); JavaScript truthiness of such a field — the test
the source applies with `!x` and `if (x)` — is `truthy` below, which is
false exactly for an absent field and for the empty string.  The external
Supabase call is modelled as a function from the submitted record to an
outcome (rows returned, an error with a code and message, or a thrown
exception), and each handler returns both its HTTP response and the list
of insert calls it issued, so that "no insert occurs" is expressible.
-/

namespace Amicus

/-- JavaScript's `\s` character class (ECMAScript WhiteSpace ∪
LineTerminator): tab, LF, vertical tab, form feed, CR, space, NBSP,
Ogham space mark, the U+2000–U+200A range, LS, PS, narrow NBSP,
medium mathematical space, ideographic space, and the BOM. -/
def isJsSpace (c : Char) : Bool :=
  c == '\t' || c == '\n' || c == '\x0b' || c == '\x0c' || c == '\r' ||
  c == ' ' || c == '\u00A0' || c == '\u1680' ||
  ('\u2000' ≤ c && c ≤ '\u200A') ||
  c == '\u2028' || c == '\u2029' || c == '\u202F' || c == '\u205F' ||
  c == '\u3000' || c == '\uFEFF'

/-- The character class `[^\s@]` of the email regex in
`src/unnamed/part_000` line 66: any character that is neither
JavaScript whitespace nor `@`. -/
def emailAtom (c : Char) : Bool :=
  !(isJsSpace c) && c != '@'

/-- Anchored match of the email regex `^[^\s@]+@[^\s@]+\.[^\s@]+$`
(`src/unnamed/part_000` line 66): the string decomposes as a nonempty
run of `emailAtom` characters, an `@` (at index `i`), a nonempty run of
`emailAtom` characters, a `.` (at index `j`), and a final nonempty run
of `emailAtom` characters.  The existential over the two separator
positions is exactly the regex's match semantics. -/
def emailMatch (s : String) : Bool :=
  let cs := s.data
  let n := cs.length
  (List.range n).any fun i =>
    (List.range n).any fun j =>
      decide (1 ≤ i) && decide (i + 2 ≤ j) && decide (j + 2 ≤ n) &&
      (cs.getD i ' ' == '@') && (cs.getD j ' ' == '.') &&
      (cs.take i).all emailAtom &&
      ((cs.drop (i + 1)).take (j - (i + 1))).all emailAtom &&
      (cs.drop (j + 1)).all emailAtom

/-- The character class `[0-9\s-()]` of the phone regex in
`src/unnamed/part_000` line 72.  In a non-Unicode JavaScript regex the
`-` after the class escape `\s` is a literal hyphen, so the class is:
ASCII digits, JavaScript whitespace, `-`, `(`, `)`. -/
def phoneClassCode (c : Char) : Bool :=
  ('0' ≤ c && c ≤ '9') || isJsSpace c || c == '-' || c == '(' || c == ')'

/-- The character class `[0-9\s()-]` written in the specification
(section 4.1, rule 4).  The trailing `-` is a literal hyphen, so the
class is: ASCII digits, JavaScript whitespace, `(`, `)`, `-` — the same
set as `phoneClassCode`, listed in a different order. -/
def phoneClassSpec (c : Char) : Bool :=
  ('0' ≤ c && c ≤ '9') || isJsSpace c || c == '(' || c == ')' || c == '-'

/-- Anchored match of a regex of the shape `^\+?[class]+$`: an optional
leading `+` followed by a nonempty run of class characters.  (If the
string starts with `+`, the backtracking alternative that skips `\+?`
fails anyway because `+` is in neither character class, so matching the
leading `+` eagerly is exact.) -/
def plusThenClass (cls : Char → Bool) (s : String) : Bool :=
  match s.data with
  | [] => false
  | c :: rest =>
    if c == '+' then !rest.isEmpty && rest.all cls
    else (c :: rest).all cls

/-- Anchored match of the phone regex `^\+?[0-9\s-()]+$` as written in
the source (`src/unnamed/part_000` line 72). -/
def phoneMatch (s : String) : Bool :=
  plusThenClass phoneClassCode s

/-- Anchored match of the phone pattern `^\+?[0-9\s()-]+$` as written in
the specification (section 4.1, rule 4). -/
def phoneMatchSpec (s : String) : Bool :=
  plusThenClass phoneClassSpec s

/-- JavaScript truthiness of an optional string field, as tested by
`!x` / `if (x)` in the handler: false for an absent field and for the
empty string, true for any other string. -/
def truthy : Option String → Bool
  | none => false
  | some s => !(s == "")

/-- The JSON body of a `POST /subscribe` request, destructured by the
handler as `const { email, phone_number, subscription_type } = req.body`
(`src/unnamed/part_000` line 55).  Each field is an optional string, as
the spec's data model declares. -/
structure ReqBody where
  email : Option String
  phone_number : Option String
  subscription_type : Option String
deriving DecidableEq

/-- The `insertData` object built by the validated handler
(`src/unnamed/part_000` lines 78–81): `subscription_type` always,
`email` and `phone_number` only when truthy, `is_active` always `true`. -/
structure InsertRecord where
  subscription_type : String
  email : Option String
  phone_number : Option String
  is_active : Bool
deriving DecidableEq

/-- One insert call issued to the Row Store:
`supabase.from(table).insert([record]).select()`.  `returning` records
that `.select()` asked for the inserted row(s) back. -/
structure InsertCall where
  table : String
  record : InsertRecord
  returning : Bool
deriving DecidableEq

/-- Outcome of awaiting the store's insert: `ok rows` when the call
resolves with `data = rows` and no error, `err code msg` when it
resolves with an error object, `thrown msg` when the await throws (the
handler's `catch` path). -/
inductive StoreOutcome where
  | ok (rows : List InsertRecord)
  | err (code : String) (msg : String)
  | thrown (msg : String)
deriving DecidableEq

/-- The JSON response the handler sends: HTTP status plus the body
fields `success`, `message`, optional `details`, optional `data`. -/
structure Response where
  status : Nat
  success : Bool
  message : String
  details : Option String
  data : Option (List InsertRecord)
deriving DecidableEq

/-- What one invocation of the handler did: the response it sent and
the insert calls it issued to the Row Store (in order). -/
structure HandlerResult where
  response : Response
  insertCalls : List InsertCall
deriving DecidableEq

def msgIdentifierRequired : String := "Email or Phone Number is required."

def msgInvalidSubType : String :=
  "Invalid or missing subscription_type. Must be \"email\", \"sms\", or \"both\"."

def msgInvalidEmail : String := "Invalid email format."

def msgInvalidPhone : String := "Invalid phone number format."

def msgDuplicate : String := "This email or phone number is already subscribed."

def msgDbError : String := "Failed to subscribe due to a database error."

def msgSuccess : String := "Subscription successful!"

def msgUnexpected : String := "An unexpected server error occurred."

/-- The `insertData` record built from a validated body
(`src/unnamed/part_000` lines 78–81): `{ subscription_type }`, then
`if (email) insertData.email = email`, then
`if (phone_number) insertData.phone_number = phone_number`, then
`insertData.is_active = true`. -/
def insertRecordOf (body : ReqBody) : InsertRecord :=
  { subscription_type := body.subscription_type.getD ""
  , email := if truthy body.email then body.email else none
  , phone_number := if truthy body.phone_number then body.phone_number else none
  , is_active := true }

/-- The `POST /subscribe` handler of `src/unnamed/part_000`
(lines 51–108), as a function of the request body and of the store's
behaviour on the submitted record.  The four `if` guards are the
source's validation sequence in order; the final `match` is the
`error`/`data` handling together with the surrounding `try`/`catch`
(line 106 sends `details: err.message` on the catch path). -/
def subscribe (body : ReqBody) (store : InsertRecord → StoreOutcome) :
    HandlerResult :=
  if !(truthy body.email) && !(truthy body.phone_number) then
    { response := { status := 400, success := false,
                    message := msgIdentifierRequired,
                    details := none, data := none }
    , insertCalls := [] }
  else if !(truthy body.subscription_type)
      || !(["email", "sms", "both"].contains (body.subscription_type.getD "")) then
    { response := { status := 400, success := false,
                    message := msgInvalidSubType,
                    details := none, data := none }
    , insertCalls := [] }
  else if truthy body.email && !(emailMatch (body.email.getD "")) then
    { response := { status := 400, success := false,
                    message := msgInvalidEmail,
                    details := none, data := none }
    , insertCalls := [] }
  else if truthy body.phone_number && !(phoneMatch (body.phone_number.getD "")) then
    { response := { status := 400, success := false,
                    message := msgInvalidPhone,
                    details := none, data := none }
    , insertCalls := [] }
  else
    let call : InsertCall :=
      { table := "subscriptions", record := insertRecordOf body, returning := true }
    match store (insertRecordOf body) with
    | StoreOutcome.ok rows =>
        { response := { status := 200, success := true, message := msgSuccess,
                        details := none, data := some rows }
        , insertCalls := [call] }
    | StoreOutcome.err code m =>
        if code == "23505" then
          { response := { status := 409, success := false, message := msgDuplicate,
                          details := none, data := none }
          , insertCalls := [call] }
        else
          { response := { status := 500, success := false, message := msgDbError,
                          details := some m, data := none }
          , insertCalls := [call] }
    | StoreOutcome.thrown m =>
        { response := { status := 500, success := false, message := msgUnexpected,
                        details := some m, data := none }
        , insertCalls := [call] }

/-- The body passes the first validation check
(`if (!email && !phone_number)` does not fire): at least one of the two
identifiers is truthy. -/
def passesIdentifierCheck (b : ReqBody) : Bool :=
  truthy b.email || truthy b.phone_number

/-- The body passes the second validation check: `subscription_type` is
truthy and is one of `"email"`, `"sms"`, `"both"`. -/
def passesSubTypeCheck (b : ReqBody) : Bool :=
  truthy b.subscription_type
    && ["email", "sms", "both"].contains (b.subscription_type.getD "")

/-- The body passes the third validation check: `email` is not truthy,
or it matches the email regex. -/
def passesEmailCheck (b : ReqBody) : Bool :=
  !(truthy b.email) || emailMatch (b.email.getD "")

/-- The body passes the fourth validation check: `phone_number` is not
truthy, or it matches the phone regex. -/
def passesPhoneCheck (b : ReqBody) : Bool :=
  !(truthy b.phone_number) || phoneMatch (b.phone_number.getD "")

/-- The `insertData` object built by the `src/index.js` handler
(lines 67–69): a single `data_value` string. -/
structure TestRecord where
  data_value : String
deriving DecidableEq

/-- One insert call issued by the `src/index.js` handler:
`supabase.from('test_entries').insert([insertData]).select()`. -/
structure TestInsertCall where
  table : String
  record : TestRecord
  returning : Bool
deriving DecidableEq

/-- Outcome of the `src/index.js` store call.  Its `catch` branch
(lines 91–94) uses no data from the thrown error, so `thrown` carries
nothing. -/
inductive TestStoreOutcome where
  | ok (rows : List TestRecord)
  | err (code : String) (msg : String)
  | thrown
deriving DecidableEq

/-- The JSON response sent by the `src/index.js` handler. -/
structure TestResponse where
  status : Nat
  success : Bool
  message : String
  details : Option String
  data : Option (List TestRecord)
deriving DecidableEq

/-- What one invocation of the `src/index.js` handler did. -/
structure TestHandlerResult where
  response : TestResponse
  insertCalls : List TestInsertCall
deriving DecidableEq

/-- The `POST /subscribe` handler of `src/index.js` (lines 57–95), as a
function of the request body, of the current timestamp
(`new Date().toISOString()`), and of the store's behaviour.  The body is
only logged, never read: no validation is performed and the insert is
always attempted. -/
def subscribeIndex (body : ReqBody) (now : String)
    (store : TestRecord → TestStoreOutcome) : TestHandlerResult :=
  let r : TestRecord := { data_value := "Test entry from API at " ++ now }
  let call : TestInsertCall :=
    { table := "test_entries", record := r, returning := true }
  match store r with
  | TestStoreOutcome.ok rows =>
      { response := { status := 200, success := true,
                      message := "Test entry successful!",
                      details := none, data := some rows }
      , insertCalls := [call] }
  | TestStoreOutcome.err code m =>
      if code == "23505" then
        { response := { status := 409, success := false,
                        message := "This entry already exists (unique constraint violation).",
                        details := none, data := none }
        , insertCalls := [call] }
      else
        { response := { status := 500, success := false,
                        message := "Failed to insert data due to a database error.",
                        details := some m, data := none }
        , insertCalls := [call] }
  | TestStoreOutcome.thrown =>
      { response := { status := 500, success := false,
                      message := "An unexpected server error occurred during test insertion.",
                      details := none, data := none }
      , insertCalls := [call] }

example : emailMatch "a@b.com" = true := by decide
example : emailMatch "a@b.c" = true := by decide
example : emailMatch "not-an-email" = false := by decide
example : emailMatch "a@b" = false := by decide
example : emailMatch "a b@c.d" = false := by decide
example : emailMatch "@b.c" = false := by decide
example : emailMatch "a@b." = false := by decide
example : emailMatch "a@b.c.d" = true := by decide
example : phoneMatch "+1 (555) 123-4567" = true := by decide
example : phoneMatch "abc" = false := by decide
example : phoneMatch "" = false := by decide
example : phoneMatch "+" = false := by decide
example : phoneMatch "+12" = true := by decide

lemma guard1_of_pass (b : ReqBody) (h : passesIdentifierCheck b = true) :
    (!(truthy b.email) && !(truthy b.phone_number)) = false := by
  unfold passesIdentifierCheck at h
  cases hA : truthy b.email <;> cases hB : truthy b.phone_number <;>
    simp_all

lemma guard2_of_pass (b : ReqBody) (h : passesSubTypeCheck b = true) :
    (!(truthy b.subscription_type)
      || !(["email", "sms", "both"].contains (b.subscription_type.getD ""))) = false := by
  unfold passesSubTypeCheck at h
  cases hA : truthy b.subscription_type <;>
    cases hB : ["email", "sms", "both"].contains (b.subscription_type.getD "") <;>
    simp_all

lemma guard3_of_pass (b : ReqBody) (h : passesEmailCheck b = true) :
    (truthy b.email && !(emailMatch (b.email.getD ""))) = false := by
  unfold passesEmailCheck at h
  cases hA : truthy b.email <;> cases hB : emailMatch (b.email.getD "") <;>
    simp_all

lemma guard4_of_pass (b : ReqBody) (h : passesPhoneCheck b = true) :
    (truthy b.phone_number && !(phoneMatch (b.phone_number.getD ""))) = false := by
  unfold passesPhoneCheck at h
  cases hA : truthy b.phone_number <;> cases hB : phoneMatch (b.phone_number.getD "") <;>
    simp_all

/-- On a body passing all four checks, the handler issues exactly one
insert call: the `insertData` record, to the `subscriptions` table, with
`.select()` requesting the row(s) back — whatever the store then does. -/
lemma subscribe_validated_calls (b : ReqBody) (store : InsertRecord → StoreOutcome)
    (h1 : passesIdentifierCheck b = true) (h2 : passesSubTypeCheck b = true)
    (h3 : passesEmailCheck b = true) (h4 : passesPhoneCheck b = true) :
    (subscribe b store).insertCalls
      = [{ table := "subscriptions", record := insertRecordOf b, returning := true }] := by
  unfold subscribe
  rw [guard1_of_pass b h1, guard2_of_pass b h2, guard3_of_pass b h3,
    guard4_of_pass b h4]
  simp only [Bool.false_eq_true, if_false]
  cases store (insertRecordOf b) with
  | ok rows => rfl
  | err code m =>
    by_cases hc : (code == "23505") = true
    · simp [hc]
    · simp [Bool.not_eq_true] at hc
      simp [hc]
  | thrown m => rfl

/-- On a body passing all four checks, the handler's result is the
store-outcome match applied to the submitted record. -/
lemma subscribe_validated (b : ReqBody) (store : InsertRecord → StoreOutcome)
    (h1 : passesIdentifierCheck b = true) (h2 : passesSubTypeCheck b = true)
    (h3 : passesEmailCheck b = true) (h4 : passesPhoneCheck b = true) :
    subscribe b store =
      (let call : InsertCall :=
        { table := "subscriptions", record := insertRecordOf b, returning := true }
      match store (insertRecordOf b) with
      | StoreOutcome.ok rows =>
          { response := { status := 200, success := true, message := msgSuccess,
                          details := none, data := some rows }
          , insertCalls := [call] }
      | StoreOutcome.err code m =>
          if code == "23505" then
            { response := { status := 409, success := false, message := msgDuplicate,
                            details := none, data := none }
            , insertCalls := [call] }
          else
            { response := { status := 500, success := false, message := msgDbError,
                            details := some m, data := none }
            , insertCalls := [call] }
      | StoreOutcome.thrown m =>
          { response := { status := 500, success := false, message := msgUnexpected,
                          details := some m, data := none }
          , insertCalls := [call] }) := by
  unfold subscribe
  rw [guard1_of_pass b h1, guard2_of_pass b h2, guard3_of_pass b h3,
    guard4_of_pass b h4]
  simp only [Bool.false_eq_true, if_false]

lemma contains_subtype_false (s : String)
    (h1 : s ≠ "email") (h2 : s ≠ "sms") (h3 : s ≠ "both") :
    (["email", "sms", "both"].contains s) = false := by
  simp [List.contains, h1, h2, h3]

/-- Claim C1: a `POST /subscribe` request whose body has both `email`
and `phone_number` absent is answered with status 400, `success:false`
and the identifier-required message, and no insert call reaches the
Row Store. -/
theorem claim_C1_missing_identifiers_rejected
    (sub : Option String) (store : InsertRecord → StoreOutcome) :
    subscribe { email := none, phone_number := none, subscription_type := sub } store
      = { response := { status := 400, success := false,
                        message := msgIdentifierRequired,
                        details := none, data := none }
        , insertCalls := [] } := by
  simp [subscribe, truthy]

/-- Claim C2: the `src/index.js` handler validates nothing and ignores
the request body — any two bodies produce the same result — and it
always issues exactly one insert, of the record
`data_value = "Test entry from API at " ++ timestamp`, into the
`test_entries` table. -/
theorem claim_C2_index_handler_ignores_body
    (body bodyAlt : ReqBody) (now : String)
    (store : TestRecord → TestStoreOutcome) :
    (subscribeIndex body now store).insertCalls
      = [{ table := "test_entries"
         , record := { data_value := "Test entry from API at " ++ now }
         , returning := true }]
    ∧ subscribeIndex body now store = subscribeIndex bodyAlt now store := by
  constructor
  · unfold subscribeIndex
    dsimp only
    cases h : store { data_value := "Test entry from API at " ++ now } with
    | ok rows => rfl
    | err code m => cases hc : (code == "23505") <;> simp [hc]
    | thrown => rfl
  · rfl

/-- Claim C3: a request with at least one identifier present whose
`subscription_type` is absent or outside `{email, sms, both}` is
answered with status 400 and `success:false`, and no insert call
reaches the Row Store. -/
theorem claim_C3_invalid_subscription_type_rejected
    (body : ReqBody) (store : InsertRecord → StoreOutcome)
    (hid : body.email ≠ none ∨ body.phone_number ≠ none)
    (hsub : ∀ s, body.subscription_type = some s →
      s ≠ "email" ∧ s ≠ "sms" ∧ s ≠ "both") :
    (subscribe body store).response.status = 400
    ∧ (subscribe body store).response.success = false
    ∧ (subscribe body store).insertCalls = [] := by
  unfold subscribe
  by_cases hg1 : (!(truthy body.email) && !(truthy body.phone_number)) = true
  · simp [hg1]
  · rw [Bool.not_eq_true] at hg1
    rw [hg1]
    have hg2 : (!(truthy body.subscription_type)
        || !(["email", "sms", "both"].contains (body.subscription_type.getD ""))) = true := by
      cases hs : body.subscription_type with
      | none => simp [truthy]
      | some s =>
        rcases hsub s hs with ⟨h1, h2, h3⟩
        simp [hs, contains_subtype_false s h1 h2 h3]
        exact Or.inr ⟨h1, h2, h3⟩
    rw [hg2]
    simp

/-- Witness for claim C3 at a concrete input: email supplied, phone
absent, `subscription_type = "weekly"` (not an allowed value). -/
theorem claim_C3_witness :
    (subscribe { email := some "a@b.com", phone_number := none,
                 subscription_type := some "weekly" }
        (fun r => StoreOutcome.ok [r])).response.status = 400
    ∧ (subscribe { email := some "a@b.com", phone_number := none,
                   subscription_type := some "weekly" }
        (fun r => StoreOutcome.ok [r])).response.success = false
    ∧ (subscribe { email := some "a@b.com", phone_number := none,
                   subscription_type := some "weekly" }
        (fun r => StoreOutcome.ok [r])).insertCalls = [] :=
  claim_C3_invalid_subscription_type_rejected
    { email := some "a@b.com", phone_number := none,
      subscription_type := some "weekly" }
    (fun r => StoreOutcome.ok [r])
    (Or.inl (by decide))
    (by
      intro s hs
      injection hs with h
      subst h
      exact ⟨by decide, by decide, by decide⟩)

/-- On a body passing the first two checks whose truthy `email` fails
the email regex, the handler stops at the third guard. -/
lemma subscribe_invalid_email (b : ReqBody) (store : InsertRecord → StoreOutcome)
    (h1 : passesIdentifierCheck b = true) (h2 : passesSubTypeCheck b = true)
    (he : truthy b.email = true) (hm : emailMatch (b.email.getD "") = false) :
    subscribe b store
      = { response := { status := 400, success := false, message := msgInvalidEmail,
                        details := none, data := none }
        , insertCalls := [] } := by
  unfold subscribe
  rw [guard1_of_pass b h1, guard2_of_pass b h2]
  simp [he, hm]

/-- On a body passing the first three checks whose truthy
`phone_number` fails the phone regex, the handler stops at the fourth
guard. -/
lemma subscribe_invalid_phone (b : ReqBody) (store : InsertRecord → StoreOutcome)
    (h1 : passesIdentifierCheck b = true) (h2 : passesSubTypeCheck b = true)
    (h3 : passesEmailCheck b = true)
    (hp : truthy b.phone_number = true) (hm : phoneMatch (b.phone_number.getD "") = false) :
    subscribe b store
      = { response := { status := 400, success := false, message := msgInvalidPhone,
                        details := none, data := none }
        , insertCalls := [] } := by
  unfold subscribe
  rw [guard1_of_pass b h1, guard2_of_pass b h2, guard3_of_pass b h3]
  simp [hp, hm]

/-- A fully validated request is never answered with a 400: the store
outcome maps to 200, 409 or 500 only. -/
lemma subscribe_validated_status_ne_400 (b : ReqBody)
    (store : InsertRecord → StoreOutcome)
    (h1 : passesIdentifierCheck b = true) (h2 : passesSubTypeCheck b = true)
    (h3 : passesEmailCheck b = true) (h4 : passesPhoneCheck b = true) :
    (subscribe b store).response.status ≠ 400 := by
  rw [subscribe_validated b store h1 h2 h3 h4]
  dsimp only
  cases store (insertRecordOf b) with
  | ok rows => simp
  | err code m => cases hc : (code == "23505") <;> simp [hc]
  | thrown m => simp

/-- The two phone character classes — `[0-9\s-()]` as written in the
source and `[0-9\s()-]` as written in the spec — are the same set. -/
lemma phoneClass_spec_eq_code : phoneClassSpec = phoneClassCode := by
  funext c
  unfold phoneClassSpec phoneClassCode
  cases h1 : ('0' ≤ c && c ≤ '9') <;> cases h2 : isJsSpace c <;>
    cases h3 : (c == '-') <;> cases h4 : (c == '(') <;> cases h5 : (c == ')') <;>
    simp [h1, h2, h3, h4, h5]

/-- A string matches the spec's phone pattern exactly when it matches
the source's phone pattern. -/
lemma phoneMatchSpec_eq_phoneMatch (s : String) :
    phoneMatchSpec s = phoneMatch s := by
  unfold phoneMatchSpec phoneMatch
  rw [phoneClass_spec_eq_code]

/-- Claim C5: on a request passing the identifier and
subscription-type checks whose `email` is supplied (truthy), the
handler answers with the 400 invalid-email-format response and no
insert exactly when `email` fails the email pattern — whatever the
other fields and the store behaviour are. -/
theorem claim_C5_email_validation
    (body : ReqBody) (store : InsertRecord → StoreOutcome)
    (h1 : passesIdentifierCheck body = true)
    (h2 : passesSubTypeCheck body = true)
    (he : truthy body.email = true) :
    (subscribe body store
      = { response := { status := 400, success := false, message := msgInvalidEmail,
                        details := none, data := none }
        , insertCalls := [] })
    ↔ emailMatch (body.email.getD "") = false := by
  constructor
  · intro hEq
    cases hm : emailMatch (body.email.getD "") with
    | false => rfl
    | true =>
      exfalso
      have h3 : passesEmailCheck body = true := by
        unfold passesEmailCheck
        simp [hm]
      by_cases h4 : passesPhoneCheck body = true
      · exact subscribe_validated_status_ne_400 body store h1 h2 h3 h4
          (by rw [hEq])
      · rw [Bool.not_eq_true] at h4
        unfold passesPhoneCheck at h4
        cases hp : truthy body.phone_number <;>
          cases hpm : phoneMatch (body.phone_number.getD "") <;>
          simp [hp, hpm] at h4
        have := subscribe_invalid_phone body store h1 h2 h3 hp hpm
        rw [this] at hEq
        have hmsg : msgInvalidPhone = msgInvalidEmail := by
          have := congrArg (fun r => r.response.message) hEq
          simpa using this
        exact absurd hmsg (by decide)
  · intro hm
    exact subscribe_invalid_email body store h1 h2 he hm

/-- Witness for claim C5 at a concrete input: a malformed email with an
otherwise valid body. -/
theorem claim_C5_witness :
    (subscribe { email := some "not-an-email", phone_number := some "+12",
                 subscription_type := some "both" }
        (fun r => StoreOutcome.ok [r])
      = { response := { status := 400, success := false, message := msgInvalidEmail,
                        details := none, data := none }
        , insertCalls := [] })
    ↔ emailMatch "not-an-email" = false :=
  claim_C5_email_validation
    { email := some "not-an-email", phone_number := some "+12",
      subscription_type := some "both" }
    (fun r => StoreOutcome.ok [r])
    (by decide) (by decide) (by decide)

/-- Counterexample to claim C4 as stated.  The body
`{email: "bad", phone_number: "abc", subscription_type: "email"}`
passes the identifier and subscription-type checks, its `phone_number`
is supplied and fails the phone pattern — yet the handler does not
answer with the invalid-phone-format message, because the email check
fires first (the response is the 400 invalid-email one).  So "400 with
the invalid-phone message exactly when the phone fails the pattern"
is false without also assuming the email check passes. -/
theorem claim_C4_counterexample :
    passesIdentifierCheck
      { email := some "bad", phone_number := some "abc",
        subscription_type := some "email" } = true
    ∧ passesSubTypeCheck
      { email := some "bad", phone_number := some "abc",
        subscription_type := some "email" } = true
    ∧ truthy (some "abc") = true
    ∧ phoneMatch "abc" = false
    ∧ phoneMatchSpec "abc" = false
    ∧ (subscribe { email := some "bad", phone_number := some "abc",
                   subscription_type := some "email" }
        (fun r => StoreOutcome.ok [r])).response.message = msgInvalidEmail
    ∧ (subscribe { email := some "bad", phone_number := some "abc",
                   subscription_type := some "email" }
        (fun r => StoreOutcome.ok [r])).response.message ≠ msgInvalidPhone := by
  refine ⟨by decide, by decide, by decide, by decide, by decide, ?_, ?_⟩ <;> decide

/-- Claim C4, amended: the spec's phone pattern and the source's phone
pattern accept the same strings, and on a request passing the
identifier, subscription-type AND email-format checks whose
`phone_number` is supplied (truthy), the handler answers with the 400
invalid-phone-format response and no insert exactly when
`phone_number` fails the (spec's) phone pattern. -/
theorem claim_C4_amended_phone_validation
    (body : ReqBody) (store : InsertRecord → StoreOutcome)
    (h1 : passesIdentifierCheck body = true)
    (h2 : passesSubTypeCheck body = true)
    (h3 : passesEmailCheck body = true)
    (hp : truthy body.phone_number = true) :
    phoneMatchSpec (body.phone_number.getD "")
      = phoneMatch (body.phone_number.getD "")
    ∧ ((subscribe body store
        = { response := { status := 400, success := false, message := msgInvalidPhone,
                          details := none, data := none }
          , insertCalls := [] })
      ↔ phoneMatchSpec (body.phone_number.getD "") = false) := by
  refine ⟨phoneMatchSpec_eq_phoneMatch _, ?_⟩
  rw [phoneMatchSpec_eq_phoneMatch]
  constructor
  · intro hEq
    cases hm : phoneMatch (body.phone_number.getD "") with
    | false => rfl
    | true =>
      exfalso
      have h4 : passesPhoneCheck body = true := by
        unfold passesPhoneCheck
        simp [hm]
      exact subscribe_validated_status_ne_400 body store h1 h2 h3 h4
        (by rw [hEq])
  · intro hm
    exact subscribe_invalid_phone body store h1 h2 h3 hp hm

/-- Witness for the amended claim C4 at a concrete input: no email, a
malformed phone number, a valid subscription type. -/
theorem claim_C4_witness :
    phoneMatchSpec "abc" = phoneMatch "abc"
    ∧ ((subscribe { email := none, phone_number := some "abc",
                    subscription_type := some "sms" }
          (fun r => StoreOutcome.ok [r])
        = { response := { status := 400, success := false, message := msgInvalidPhone,
                          details := none, data := none }
          , insertCalls := [] })
      ↔ phoneMatchSpec "abc" = false) :=
  claim_C4_amended_phone_validation
    { email := none, phone_number := some "abc", subscription_type := some "sms" }
    (fun r => StoreOutcome.ok [r])
    (by decide) (by decide) (by decide) (by decide)

/-- Claim C6: on a request passing all four validation checks, the
handler issues exactly one insert, to the `subscriptions` table,
requesting the inserted row(s) back; the submitted record carries the
supplied `subscription_type`, has `is_active = true`, and carries each
of `email` / `phone_number` exactly when it was supplied (an
unsupplied field is omitted — `none` — not null-filled). -/
theorem claim_C6_insert_record_shape
    (body : ReqBody) (store : InsertRecord → StoreOutcome)
    (h1 : passesIdentifierCheck body = true)
    (h2 : passesSubTypeCheck body = true)
    (h3 : passesEmailCheck body = true)
    (h4 : passesPhoneCheck body = true) :
    (subscribe body store).insertCalls
      = [{ table := "subscriptions", record := insertRecordOf body, returning := true }]
    ∧ body.subscription_type = some (insertRecordOf body).subscription_type
    ∧ (insertRecordOf body).is_active = true
    ∧ (truthy body.email = true → (insertRecordOf body).email = body.email)
    ∧ (truthy body.email = false → (insertRecordOf body).email = none)
    ∧ (truthy body.phone_number = true →
        (insertRecordOf body).phone_number = body.phone_number)
    ∧ (truthy body.phone_number = false →
        (insertRecordOf body).phone_number = none) := by
  refine ⟨subscribe_validated_calls body store h1 h2 h3 h4, ?_, rfl, ?_, ?_, ?_, ?_⟩
  · unfold passesSubTypeCheck at h2
    cases hs : body.subscription_type with
    | none => rw [hs] at h2; simp [truthy] at h2
    | some s => simp [insertRecordOf, hs]
  · intro h; simp [insertRecordOf, h]
  · intro h; simp [insertRecordOf, h]
  · intro h; simp [insertRecordOf, h]
  · intro h; simp [insertRecordOf, h]

/-- Witness for claim C6 at a concrete input: email supplied, phone
absent, `subscription_type = "email"`. -/
theorem claim_C6_witness :
    (subscribe { email := some "a@b.com", phone_number := none,
                 subscription_type := some "email" }
        (fun r => StoreOutcome.ok [r])).insertCalls
      = [{ table := "subscriptions"
         , record := insertRecordOf { email := some "a@b.com", phone_number := none,
                                      subscription_type := some "email" }
         , returning := true }]
    ∧ (some "email" : Option String)
      = some (insertRecordOf { email := some "a@b.com", phone_number := none,
                               subscription_type := some "email" }).subscription_type
    ∧ (insertRecordOf { email := some "a@b.com", phone_number := none,
                        subscription_type := some "email" }).is_active = true
    ∧ (truthy (some "a@b.com") = true →
        (insertRecordOf { email := some "a@b.com", phone_number := none,
                          subscription_type := some "email" }).email = some "a@b.com")
    ∧ (truthy (some "a@b.com") = false →
        (insertRecordOf { email := some "a@b.com", phone_number := none,
                          subscription_type := some "email" }).email = none)
    ∧ (truthy (none : Option String) = true →
        (insertRecordOf { email := some "a@b.com", phone_number := none,
                          subscription_type := some "email" }).phone_number = none)
    ∧ (truthy (none : Option String) = false →
        (insertRecordOf { email := some "a@b.com", phone_number := none,
                          subscription_type := some "email" }).phone_number = none) :=
  claim_C6_insert_record_shape
    { email := some "a@b.com", phone_number := none,
      subscription_type := some "email" }
    (fun r => StoreOutcome.ok [r])
    (by decide) (by decide) (by decide) (by decide)

/-- Claim C7: on a validated request whose insert the store answers
with error code `23505` (unique-constraint violation), the handler
responds 409 with `success:false` and the duplicate-subscription
message. -/
theorem claim_C7_duplicate_conflict
    (body : ReqBody) (store : InsertRecord → StoreOutcome) (m : String)
    (h1 : passesIdentifierCheck body = true)
    (h2 : passesSubTypeCheck body = true)
    (h3 : passesEmailCheck body = true)
    (h4 : passesPhoneCheck body = true)
    (hs : store (insertRecordOf body) = StoreOutcome.err "23505" m) :
    (subscribe body store).response
      = { status := 409, success := false, message := msgDuplicate,
          details := none, data := none } := by
  rw [subscribe_validated body store h1 h2 h3 h4]
  dsimp only
  rw [hs]
  rfl

/-- Witness for claim C7 at a concrete input and a store answering
with the unique-violation code. -/
theorem claim_C7_witness :
    (subscribe { email := some "a@b.com", phone_number := none,
                 subscription_type := some "email" }
        (fun _ => StoreOutcome.err "23505" "duplicate key value")).response
      = { status := 409, success := false, message := msgDuplicate,
          details := none, data := none } :=
  claim_C7_duplicate_conflict
    { email := some "a@b.com", phone_number := none,
      subscription_type := some "email" }
    (fun _ => StoreOutcome.err "23505" "duplicate key value")
    "duplicate key value"
    (by decide) (by decide) (by decide) (by decide) rfl

/-- Claim C8: on a validated request whose insert the store answers
with an error whose code is not `23505`, the handler responds 500 with
`success:false`, the database-error message, and the store's error
message in `details`. -/
theorem claim_C8_db_error
    (body : ReqBody) (store : InsertRecord → StoreOutcome) (code m : String)
    (h1 : passesIdentifierCheck body = true)
    (h2 : passesSubTypeCheck body = true)
    (h3 : passesEmailCheck body = true)
    (h4 : passesPhoneCheck body = true)
    (hcode : code ≠ "23505")
    (hs : store (insertRecordOf body) = StoreOutcome.err code m) :
    (subscribe body store).response
      = { status := 500, success := false, message := msgDbError,
          details := some m, data := none } := by
  rw [subscribe_validated body store h1 h2 h3 h4]
  dsimp only
  rw [hs]
  have hc : (code == "23505") = false := by simp [hcode]
  simp [hc]

/-- Witness for claim C8 at a concrete input and a store answering
with an unrelated error code. -/
theorem claim_C8_witness :
    (subscribe { email := some "a@b.com", phone_number := none,
                 subscription_type := some "email" }
        (fun _ => StoreOutcome.err "42P01" "relation does not exist")).response
      = { status := 500, success := false, message := msgDbError,
          details := some "relation does not exist", data := none } :=
  claim_C8_db_error
    { email := some "a@b.com", phone_number := none,
      subscription_type := some "email" }
    (fun _ => StoreOutcome.err "42P01" "relation does not exist")
    "42P01" "relation does not exist"
    (by decide) (by decide) (by decide) (by decide) (by decide) rfl

/-- Claim C9: on a validated request whose insert succeeds, the
handler responds 200 with `success:true`, the success message, and a
`data` field echoing exactly the rows the store returned; the record
it submitted (and that a store echoing the insert returns) has
`is_active = true`. -/
theorem claim_C9_success_response
    (body : ReqBody) (store : InsertRecord → StoreOutcome)
    (rows : List InsertRecord)
    (h1 : passesIdentifierCheck body = true)
    (h2 : passesSubTypeCheck body = true)
    (h3 : passesEmailCheck body = true)
    (h4 : passesPhoneCheck body = true)
    (hs : store (insertRecordOf body) = StoreOutcome.ok rows) :
    (subscribe body store).response
      = { status := 200, success := true, message := msgSuccess,
          details := none, data := some rows }
    ∧ (insertRecordOf body).is_active = true := by
  refine ⟨?_, rfl⟩
  rw [subscribe_validated body store h1 h2 h3 h4]
  dsimp only
  rw [hs]

/-- Witness for claim C9 at a concrete input and a store that echoes
the inserted record. -/
theorem claim_C9_witness :
    (subscribe { email := some "a@b.com", phone_number := none,
                 subscription_type := some "email" }
        (fun r => StoreOutcome.ok [r])).response
      = { status := 200, success := true, message := msgSuccess,
          details := none
        , data := some [insertRecordOf { email := some "a@b.com", phone_number := none,
                                         subscription_type := some "email" }] }
    ∧ (insertRecordOf { email := some "a@b.com", phone_number := none,
                        subscription_type := some "email" }).is_active = true :=
  claim_C9_success_response
    { email := some "a@b.com", phone_number := none,
      subscription_type := some "email" }
    (fun r => StoreOutcome.ok [r])
    [insertRecordOf { email := some "a@b.com", phone_number := none,
                      subscription_type := some "email" }]
    (by decide) (by decide) (by decide) (by decide) rfl

/-- Counterexample to claim C10 as stated.  On the catch path the
`src/unnamed/part_000` handler (line 106) does surface the thrown
error's message: with a store whose call throws
`"connect ECONNREFUSED"`, the response carries
`details: "connect ECONNREFUSED"`, contradicting "no internal error
detail is surfaced to the caller". -/
theorem claim_C10_counterexample :
    (subscribe { email := some "a@b.com", phone_number := none,
                 subscription_type := some "email" }
        (fun _ => StoreOutcome.thrown "connect ECONNREFUSED")).response.status = 500
    ∧ (subscribe { email := some "a@b.com", phone_number := none,
                   subscription_type := some "email" }
        (fun _ => StoreOutcome.thrown "connect ECONNREFUSED")).response.success = false
    ∧ (subscribe { email := some "a@b.com", phone_number := none,
                   subscription_type := some "email" }
        (fun _ => StoreOutcome.thrown "connect ECONNREFUSED")).response.message
        = msgUnexpected
    ∧ (subscribe { email := some "a@b.com", phone_number := none,
                   subscription_type := some "email" }
        (fun _ => StoreOutcome.thrown "connect ECONNREFUSED")).response.details
        = some "connect ECONNREFUSED" := by
  refine ⟨?_, ?_, ?_, ?_⟩ <;> decide

/-- Claim C10, amended: when the store call throws, the handler
responds 500 with `success:false` and the generic
unexpected-server-error message — and a `details` field carrying the
thrown error's message (the `catch` branch sends
`details: err.message`). -/
theorem claim_C10_amended_unexpected_error
    (body : ReqBody) (store : InsertRecord → StoreOutcome) (m : String)
    (h1 : passesIdentifierCheck body = true)
    (h2 : passesSubTypeCheck body = true)
    (h3 : passesEmailCheck body = true)
    (h4 : passesPhoneCheck body = true)
    (hs : store (insertRecordOf body) = StoreOutcome.thrown m) :
    (subscribe body store).response
      = { status := 500, success := false, message := msgUnexpected,
          details := some m, data := none } := by
  rw [subscribe_validated body store h1 h2 h3 h4]
  dsimp only
  rw [hs]

/-- Witness for the amended claim C10 at a concrete input and a store
whose call throws. -/
theorem claim_C10_witness :
    (subscribe { email := none, phone_number := some "+12",
                 subscription_type := some "sms" }
        (fun _ => StoreOutcome.thrown "fetch failed")).response
      = { status := 500, success := false, message := msgUnexpected,
          details := some "fetch failed", data := none } :=
  claim_C10_amended_unexpected_error
    { email := none, phone_number := some "+12", subscription_type := some "sms" }
    (fun _ => StoreOutcome.thrown "fetch failed")
    "fetch failed"
    (by decide) (by decide) (by decide) (by decide) rfl

end Amicus
